import Mathlib

/-!
Verification of the serialization/deserialization (SerDes) layer for
IFRT IoCallablePrograms, the ahead-of-time compile/load/execute contract,
and the plugin-profiler registration entry point, as a shallow embedding
of the corresponding C++ sources
(xla/python/ifrt/io_callable_program_serdes.cc,
xla/pjrt/gpu/se_gpu_pjrt_compiler_aot_test.cc, xla/python/profiler.cc).

The wire encoding of individual message types (protobuf) is external to
the verified core: serialized bytes are modelled as either a structured
message value or an unparseable byte string, mirroring the fact that
ParseFromString either recovers the encoded message or fails.
-/

namespace IfrtSerDes

/-- A concrete device handle. Modelled from the spec: a device has a stable
logical id used on the wire, plus further identity (here an address) so that
distinct handles can share no structure beyond the id. -/
structure Device where
  id : Nat
  addr : Nat
deriving DecidableEq, Repr

/-- Modelled from the spec: the device-resolution capability supplied in
DeserializeOptions, a function from logical device id to device handle;
an id with no resolution yields none (the C++ LookupDeviceFunc returns a
non-ok status). -/
def LookupDevice : Type := Nat → Option Device

/-- Error taxonomy of the SerDes layer (spec section 7). The C++ code
reports MalformedPayload as absl InvalidArgumentError with a message. -/
inductive SerDesError where
  | malformedPayload (msg : String)
  | unresolvedDevice (id : Nat)
  | invalidOptions
deriving DecidableEq, Repr

/-- Wire form of a device list: the logical device ids, in order. -/
structure DeviceListProto where
  device_ids : List Nat
deriving DecidableEq, Repr

/-- Wire form of one array spec: element type, shape, and the sharding
device assignment as logical device ids. Modelled from the spec: each spec
is shape + element type + sharding/device assignment. -/
structure ArraySpecProto where
  dtype : Nat
  shape : List Nat
  shardingDeviceIds : List Nat
deriving DecidableEq, Repr

/-- Wire form of an IoCallableProgram, with the exact fields written by
IoCallableProgramSerDes Serialize: type, name, serialized_program_text,
devices, input_specs, output_specs. -/
structure IoCallableProgramProto where
  type : String
  name : String
  serialized_program_text : String
  devices : DeviceListProto
  input_specs : List ArraySpecProto
  output_specs : List ArraySpecProto
deriving DecidableEq, Repr

/-- The default (all fields empty) IoCallableProgramProto, the message an
empty byte string parses to. -/
def IoCallableProgramProto.default : IoCallableProgramProto :=
  ⟨"", "", "", ⟨[]⟩, [], []⟩

/-- One live array spec: element type, shape, and resolved sharding
devices. -/
structure ArraySpec where
  dtype : Nat
  shape : List Nat
  shardingDevices : List Device
deriving DecidableEq, Repr

/-- The live IoCallableProgram value, with the fields read and written by
its SerDes: type, name, serialized_program_text, devices, input_specs,
output_specs. -/
structure IoCallableProgram where
  type : String
  name : String
  serialized_program_text : String
  devices : List Device
  input_specs : List ArraySpec
  output_specs : List ArraySpec
deriving DecidableEq, Repr

/-- The no-field compile options value for IoCallablePrograms. -/
structure IoCallableCompileOptions where
deriving DecidableEq, Repr

/-- Serialized bytes as seen by the SerDes layer: the empty string, a
string that is the protobuf encoding of an IoCallableProgramProto, or any
other byte string (which fails to parse). The empty string is the valid
encoding of the default message. -/
inductive SerializedBytes where
  | empty
  | programProto (proto : IoCallableProgramProto)
  | junk (s : String)
deriving DecidableEq, Repr

/-- ParseFromString for IoCallableProgramProto: recovers the encoded
message, parses the empty string to the default message, and fails on any
other byte string. -/
def parseIoCallableProgramProto : SerializedBytes → Option IoCallableProgramProto
  | .empty => some IoCallableProgramProto.default
  | .programProto proto => some proto
  | .junk _ => none

/-- The polymorphic DeserializeOptions passed through the registry:
either the DeserializeProgramOptions carrying the device-resolution
capability, or some other concrete DeserializeOptions subtype. -/
inductive DeserializeOptions where
  | programOptions (lookup_device : LookupDevice)
  | otherOptions

/-- Outcome of a SerDes operation: a value, an explicit error status, or
an abort. The abort constructor models a failed llvm cast, which asserts
on mismatch (aborting the process) instead of returning a status. -/
inductive Outcome (α : Type) where
  | ok (v : α)
  | err (e : SerDesError)
  | abort
deriving DecidableEq, Repr

/-- Models the llvm cast to DeserializeProgramOptions at the top of
IoCallableProgramSerDes Deserialize: a capability-checked cast that
succeeds exactly when the options are DeserializeProgramOptions and
asserts (aborts) otherwise. -/
def castToProgramOptions : DeserializeOptions → Option LookupDevice
  | .programOptions f => some f
  | .otherOptions => none

/-- Modelled from the spec: DeviceList ToProto encodes the logical device
ids of the devices, in order. -/
def deviceListToProto (devices : List Device) : DeviceListProto :=
  ⟨devices.map (·.id)⟩

/-- Modelled from the spec: resolving a list of logical device ids with
the device-resolution capability, failing with UnresolvedDevice on the
first id that has no resolution. -/
def resolveDevices (lookup : LookupDevice) : List Nat → Except SerDesError (List Device)
  | [] => .ok []
  | i :: rest =>
    match lookup i with
    | none => .error (.unresolvedDevice i)
    | some d =>
      match resolveDevices lookup rest with
      | .error e => .error e
      | .ok ds => .ok (d :: ds)

/-- Modelled from the spec: DeviceList FromProto resolves the encoded ids
via the device-resolution capability found in the options. -/
def deviceListFromProto (lookup : LookupDevice) (proto : DeviceListProto) :
    Except SerDesError (List Device) :=
  resolveDevices lookup proto.device_ids

/-- Modelled from the spec: ArraySpec ToProto encodes element type, shape,
and the sharding devices as their logical ids. -/
def ArraySpec.toProto (s : ArraySpec) : ArraySpecProto :=
  ⟨s.dtype, s.shape, s.shardingDevices.map (·.id)⟩

/-- Modelled from the spec: ArraySpec FromProto reconstructs the spec,
resolving the sharding device ids with the same resolution capability. -/
def arraySpecFromProto (lookup : LookupDevice) (proto : ArraySpecProto) :
    Except SerDesError ArraySpec :=
  match resolveDevices lookup proto.shardingDeviceIds with
  | .error e => .error e
  | .ok ds => .ok ⟨proto.dtype, proto.shape, ds⟩

/-- The loop in Deserialize that rebuilds each array spec from its proto,
in order, propagating the first failure. -/
def resolveSpecs (lookup : LookupDevice) : List ArraySpecProto → Except SerDesError (List ArraySpec)
  | [] => .ok []
  | p :: rest =>
    match arraySpecFromProto lookup p with
    | .error e => .error e
    | .ok s =>
      match resolveSpecs lookup rest with
      | .error e => .error e
      | .ok ss => .ok (s :: ss)

/-- IoCallableProgramSerDes Serialize: encode type, name, program text,
devices, and each input/output array spec into the wire message, then
serialize it. (ArraySpec ToProto is total in this model, so serialization
always succeeds.) -/
def IoCallableProgramSerDes.Serialize (program : IoCallableProgram) : SerializedBytes :=
  .programProto
    ⟨program.type, program.name, program.serialized_program_text,
     deviceListToProto program.devices,
     program.input_specs.map ArraySpec.toProto,
     program.output_specs.map ArraySpec.toProto⟩

/-- IoCallableProgramSerDes Deserialize: cast the options (llvm cast,
aborting on a wrong concrete type), parse the payload (InvalidArgument on
parse failure), resolve the device list and every input/output array spec
via the lookup capability, and reassemble the program. -/
def IoCallableProgramSerDes.Deserialize (serialized : SerializedBytes)
    (options : DeserializeOptions) : Outcome IoCallableProgram :=
  match castToProgramOptions options with
  | none => .abort
  | some lookup =>
    match parseIoCallableProgramProto serialized with
    | none => .err (.malformedPayload "Failed to parse serialized IoCallableProgramProto")
    | some proto =>
      match deviceListFromProto lookup proto.devices with
      | .error e => .err e
      | .ok devices =>
        match resolveSpecs lookup proto.input_specs with
        | .error e => .err e
        | .ok input_specs =>
          match resolveSpecs lookup proto.output_specs with
          | .error e => .err e
          | .ok output_specs =>
            .ok ⟨proto.type, proto.name, proto.serialized_program_text,
                 devices, input_specs, output_specs⟩

/-- IoCallableCompileOptionsSerDes Serialize: always returns the empty
string. -/
def IoCallableCompileOptionsSerDes.Serialize (_options : IoCallableCompileOptions) :
    SerializedBytes :=
  .empty

/-- The error message IoCallableCompileOptionsSerDes Deserialize reports
on a non-empty payload. -/
def compileOptionsMalformedMsg : String :=
  "Invalid serialized IoCallableCompileOptions; a serialized IoCallableCompileOptions is expected to be an empty string"

/-- IoCallableCompileOptionsSerDes Deserialize: rejects any non-empty
payload with InvalidArgument, otherwise produces a fresh
IoCallableCompileOptions. The options argument is never inspected. -/
def IoCallableCompileOptionsSerDes.Deserialize (serialized : SerializedBytes)
    (_options : DeserializeOptions) : Outcome IoCallableCompileOptions :=
  match serialized with
  | .empty => .ok ⟨⟩
  | _ => .err (.malformedPayload compileOptionsMalformedMsg)

/-- All logical device ids referenced by a program proto: the device list
ids followed by every sharding id of every input and output spec. -/
def referencedIds (proto : IoCallableProgramProto) : List Nat :=
  proto.devices.device_ids
    ++ (proto.input_specs.flatMap fun s => s.shardingDeviceIds)
    ++ (proto.output_specs.flatMap fun s => s.shardingDeviceIds)

end IfrtSerDes

namespace PjrtAot

/-- Modelled from the spec: a TargetDescription is an immutable snapshot of
the compilation-relevant properties of an accelerator (ISA, memory
hierarchy parameters), usable without a live device. -/
structure TargetDescription where
  isa : Nat
  memoryHierarchy : List Nat
deriving DecidableEq, Repr

/-- Root instruction of the entry computation of a source program: a
scalar s32 constant (the shape used by the AOT tests), or an operation the
compiler does not support. -/
inductive HloInstr where
  | constantS32 (v : Int)
  | unsupportedOp (opName : String)
deriving DecidableEq, Repr

/-- A source program: its entry computation root. The AOT test program is
a zero-parameter computation returning its root. -/
structure SourceProgram where
  entryRoot : HloInstr
deriving DecidableEq, Repr

/-- The kProgram of the AOT tests: ENTRY Computation() returns the s32
constant 2. -/
def kProgram : SourceProgram :=
  ⟨.constantS32 2⟩

/-- Compile options; target_config optionally carries a captured
TargetDescription, as set by the AOT tests. -/
structure CompileOptions where
  target_config : Option TargetDescription
deriving DecidableEq, Repr

/-- A live client, owning devices of one concrete target. -/
structure Client where
  deviceTarget : TargetDescription
deriving DecidableEq, Repr

/-- Modelled from the spec: compile failure modes — UnsupportedOp for an
unsupported construct, TargetMismatch when the compile options reference
capabilities absent from the target description, InternalCompilerError for
lowering failures. -/
inductive CompileError where
  | unsupportedOp (opName : String)
  | targetMismatch
  | internalCompilerError
deriving DecidableEq, Repr

/-- Modelled from the spec: an Executable owns the compiled machine code
plus metadata and is immutable after creation. The compiled code of a
zero-parameter program is represented by the output values it computes,
one per program output. -/
structure Executable where
  target : TargetDescription
  loweredOutputs : List Int
  numParams : Nat
deriving DecidableEq, Repr

/-- Modelled from the spec: Compile is a pure function from (options,
source program, target description, optional client) to an Executable; the
client argument may be absent (none) for device-less ahead-of-time builds
and does not influence the result. Lowering a constant-root entry
computation produces code computing that single constant output. -/
def Compile (opts : CompileOptions) (program : SourceProgram)
    (target : TargetDescription) (_client : Option Client) :
    Except CompileError Executable :=
  match opts.target_config with
  | some cfg =>
    if cfg = target then
      match program.entryRoot with
      | .unsupportedOp n => .error (.unsupportedOp n)
      | .constantS32 v => .ok ⟨target, [v], 0⟩
    else
      .error .targetMismatch
  | none =>
    match program.entryRoot with
    | .unsupportedOp n => .error (.unsupportedOp n)
    | .constantS32 v => .ok ⟨target, [v], 0⟩

/-- The format version tag written into serialized executables. -/
def execFormatVersion : Nat := 1

/-- Serialized executable bytes: a versioned self-contained encoding of
the compiled artifact, or bytes that do not parse as any known version. -/
inductive ExecBytes where
  | versioned (version : Nat) (target : TargetDescription)
      (loweredOutputs : List Int) (numParams : Nat)
  | junk (s : String)
deriving DecidableEq, Repr

/-- Modelled from the spec: SerializeExecutable produces a self-contained,
versioned byte sequence sufficient to reconstruct an equivalent Executable
without recompilation. -/
def SerializeExecutable (e : Executable) : ExecBytes :=
  .versioned execFormatVersion e.target e.loweredOutputs e.numParams

/-- Modelled from the spec: a LoadedExecutable is bound to the concrete
devices of its client and holds the compiled code ready to run. -/
structure LoadedExecutable where
  client : Client
  loweredOutputs : List Int
  numParams : Nat
  numReplicas : Nat
deriving DecidableEq, Repr

/-- Load/execute failure modes of the spec taxonomy. -/
inductive LoadExecError where
  | malformedPayload
  | targetIncompatible
  | argumentMismatch
  | executionError
deriving DecidableEq, Repr

/-- Modelled from the spec: LoadSerialized binds serialized executable
bytes to the live devices of a client; it fails with MalformedPayload on
bytes that do not parse as a known-version serialized Executable and with
TargetIncompatible when the captured target does not match the client
devices. It reconstructs the compiled code from the bytes alone, without
recompiling. -/
def LoadSerialized (serialized : ExecBytes) (client : Client) :
    Except LoadExecError LoadedExecutable :=
  match serialized with
  | .junk _ => .error .malformedPayload
  | .versioned version target loweredOutputs numParams =>
    if version ≠ execFormatVersion then .error .malformedPayload
    else if target ≠ client.deviceTarget then .error .targetIncompatible
    else .ok ⟨client, loweredOutputs, numParams, 1⟩

/-- A result buffer holds one s32 literal value. -/
abbrev Buffer : Type := Int

/-- Modelled from the spec: Execute takes one list of argument handles per
replica and returns one outer entry per replica, one inner entry per
output; a wrong argument arity fails with ArgumentMismatch. -/
def Execute (le : LoadedExecutable) (argument_handles : List (List Buffer)) :
    Except LoadExecError (List (List Buffer)) :=
  if argument_handles.length ≠ le.numReplicas then .error .argumentMismatch
  else if argument_handles.any (fun args => args.length ≠ le.numParams) then
    .error .argumentMismatch
  else
    .ok (List.replicate le.numReplicas le.loweredOutputs)

end PjrtAot

namespace PyProfiler

/-- The type tag of one PJRT extension node. -/
inductive ExtensionType where
  | profiler
  | other
deriving DecidableEq, Repr

/-- One node of the PJRT extension chain; a profiler node carries the
plugin profiler API (none models a null profiler_api pointer). -/
structure PjrtExtension where
  type : ExtensionType
  profilerApi : Option Nat
deriving DecidableEq, Repr

/-- The PJRT C API as reached through a capsule: its extension chain,
walked from extension_start. -/
structure PjrtCApi where
  extensions : List PjrtExtension
deriving DecidableEq, Repr

/-- A capsule argument: its name tag and the API its data pointer leads
to. -/
structure Capsule where
  name : String
  data : PjrtCApi
deriving DecidableEq, Repr

/-- Errors thrown by the profiler bindings. -/
inductive XlaError where
  | xlaRuntimeError (msg : String)
deriving DecidableEq, Repr

/-- FindProfilerApi: walk the extension chain from extension_start to the
first node of profiler type; return null when there is none, else that
node's profiler_api. -/
def FindProfilerApi (pjrt_api : PjrtCApi) : Option Nat :=
  match pjrt_api.extensions.find? (fun e => e.type == ExtensionType.profiler) with
  | none => none
  | some e => e.profilerApi

/-- register_plugin_profiler: throws XlaRuntimeError when the capsule name
is not pjrt_c_api; otherwise reads the capsule data, locates the profiler
extension and registers a profiler factory capturing it. The registered
factories are passed and returned explicitly as the process-wide state. -/
def register_plugin_profiler (c_api : Capsule) (factories : List (Option Nat)) :
    Except XlaError (List (Option Nat)) :=
  if c_api.name ≠ "pjrt_c_api" then
    .error (.xlaRuntimeError
      "Argument to register_plugin_profiler was not a pjrt_c_api capsule.")
  else
    .ok (factories ++ [FindProfilerApi c_api.data])

end PyProfiler

/-! ## Helper lemmas about device and spec resolution -/

namespace IfrtSerDes

/-- Resolving the ids of a device list with a lookup that is consistent on
those devices recovers the device list. -/
theorem resolveDevices_map_id (lookup : LookupDevice) (l : List Device)
    (h : ∀ d ∈ l, lookup d.id = some d) :
    resolveDevices lookup (l.map (·.id)) = .ok l := by
  induction l with
  | nil => rfl
  | cons d rest ih =>
    have hd := h d (List.mem_cons_self d rest)
    have hrest := ih (fun x hx => h x (List.mem_cons_of_mem d hx))
    simp [resolveDevices, hd, hrest]

/-- Rebuilding an array spec from its own wire form with a consistent
lookup recovers the spec. -/
theorem arraySpecFromProto_toProto (lookup : LookupDevice) (s : ArraySpec)
    (h : ∀ d ∈ s.shardingDevices, lookup d.id = some d) :
    arraySpecFromProto lookup s.toProto = .ok s := by
  simp [arraySpecFromProto, ArraySpec.toProto, resolveDevices_map_id lookup s.shardingDevices h]

/-- Rebuilding a list of array specs from their wire forms with a
consistent lookup recovers the list, in order. -/
theorem resolveSpecs_map_toProto (lookup : LookupDevice) (specs : List ArraySpec)
    (h : ∀ s ∈ specs, ∀ d ∈ s.shardingDevices, lookup d.id = some d) :
    resolveSpecs lookup (specs.map ArraySpec.toProto) = .ok specs := by
  induction specs with
  | nil => rfl
  | cons s rest ih =>
    have hs := arraySpecFromProto_toProto lookup s (h s (List.mem_cons_self s rest))
    have hrest := ih (fun x hx => h x (List.mem_cons_of_mem s hx))
    simp [resolveSpecs, hs, hrest]

/-- A failed device-id resolution always reports UnresolvedDevice for some
id that has no resolution. -/
theorem resolveDevices_error_elim (lookup : LookupDevice) (ids : List Nat)
    (e : SerDesError) (h : resolveDevices lookup ids = .error e) :
    ∃ j, lookup j = none ∧ e = .unresolvedDevice j := by
  induction ids with
  | nil => simp [resolveDevices] at h
  | cons i rest ih =>
    rw [resolveDevices] at h
    cases hl : lookup i with
    | none =>
      rw [hl] at h
      exact ⟨i, hl, by injection h with h1; exact h1.symm⟩
    | some d =>
      rw [hl] at h
      cases hr : resolveDevices lookup rest with
      | error e2 =>
        rw [hr] at h
        injection h with h1
        exact ih (h1 ▸ hr)
      | ok ds => rw [hr] at h; exact absurd h (by simp)

/-- A successful device-id resolution means every id had a resolution. -/
theorem resolveDevices_ok_elim (lookup : LookupDevice) (ids : List Nat)
    (l : List Device) (h : resolveDevices lookup ids = .ok l) :
    ∀ j ∈ ids, ∃ d, lookup j = some d := by
  induction ids generalizing l with
  | nil => intro j hj; exact absurd hj (List.not_mem_nil j)
  | cons i rest ih =>
    intro j hj
    rw [resolveDevices] at h
    cases hl : lookup i with
    | none => rw [hl] at h; exact absurd h (by simp)
    | some d =>
      rw [hl] at h
      cases hr : resolveDevices lookup rest with
      | error e2 => rw [hr] at h; exact absurd h (by simp)
      | ok ds =>
        rcases List.mem_cons.mp hj with hji | hjr
        · exact ⟨d, hji ▸ hl⟩
        · exact ih ds hr j hjr

/-- A failed array-spec resolution always reports UnresolvedDevice for
some id that has no resolution. -/
theorem resolveSpecs_error_elim (lookup : LookupDevice) (ps : List ArraySpecProto)
    (e : SerDesError) (h : resolveSpecs lookup ps = .error e) :
    ∃ j, lookup j = none ∧ e = .unresolvedDevice j := by
  induction ps with
  | nil => simp [resolveSpecs] at h
  | cons p rest ih =>
    rw [resolveSpecs] at h
    cases hp : arraySpecFromProto lookup p with
    | error e2 =>
      rw [hp] at h
      rw [arraySpecFromProto] at hp
      cases hr : resolveDevices lookup p.shardingDeviceIds with
      | error e3 =>
        rw [hr] at hp
        injection hp with h1
        injection h with h2
        exact h2 ▸ h1 ▸ resolveDevices_error_elim lookup p.shardingDeviceIds e3 hr
      | ok ds => rw [hr] at hp; exact absurd hp (by simp)
    | ok s =>
      rw [hp] at h
      cases hr : resolveSpecs lookup rest with
      | error e2 =>
        rw [hr] at h
        injection h with h1
        exact ih (h1 ▸ hr)
      | ok ss => rw [hr] at h; exact absurd h (by simp)

/-- A successful array-spec resolution means every sharding id of every
spec had a resolution. -/
theorem resolveSpecs_ok_elim (lookup : LookupDevice) (ps : List ArraySpecProto)
    (l : List ArraySpec) (h : resolveSpecs lookup ps = .ok l) :
    ∀ p ∈ ps, ∀ j ∈ p.shardingDeviceIds, ∃ d, lookup j = some d := by
  induction ps generalizing l with
  | nil => intro p hp; exact absurd hp (List.not_mem_nil p)
  | cons q rest ih =>
    intro p hp j hj
    rw [resolveSpecs] at h
    cases hq : arraySpecFromProto lookup q with
    | error e2 => rw [hq] at h; exact absurd h (by simp)
    | ok s =>
      rw [hq] at h
      cases hr : resolveSpecs lookup rest with
      | error e2 => rw [hr] at h; exact absurd h (by simp)
      | ok ss =>
        rcases List.mem_cons.mp hp with hpq | hpr
        · subst hpq
          rw [arraySpecFromProto] at hq
          cases hd : resolveDevices lookup p.shardingDeviceIds with
          | error e3 => rw [hd] at hq; exact absurd hq (by simp)
          | ok ds => exact resolveDevices_ok_elim lookup p.shardingDeviceIds ds hd j hj
        · exact ih ss hr p hpr j hj

end IfrtSerDes

/-! ## Claim theorems: IoCallableProgram SerDes -/

namespace IfrtSerDes

/-- C1: for the registered kind xla::ifrt::IoCallableProgram, serializing
any IoCallableProgram and deserializing the bytes with options whose
device resolution is consistent with the devices referenced by the value
reconstructs a program equal to the original: same type, name, serialized
program text, device list, and input/output array specs, number and order
preserved exactly. -/
theorem ioCallableProgram_serdes_roundtrip (p : IoCallableProgram) (lookup : LookupDevice)
    (hdev : ∀ d ∈ p.devices, lookup d.id = some d)
    (hin : ∀ s ∈ p.input_specs, ∀ d ∈ s.shardingDevices, lookup d.id = some d)
    (hout : ∀ s ∈ p.output_specs, ∀ d ∈ s.shardingDevices, lookup d.id = some d) :
    IoCallableProgramSerDes.Deserialize (IoCallableProgramSerDes.Serialize p)
      (.programOptions lookup) = .ok p := by
  rw [IoCallableProgramSerDes.Serialize, IoCallableProgramSerDes.Deserialize]
  simp only [castToProgramOptions, parseIoCallableProgramProto, deviceListFromProto,
    deviceListToProto, resolveDevices_map_id lookup p.devices hdev,
    resolveSpecs_map_toProto lookup p.input_specs hin,
    resolveSpecs_map_toProto lookup p.output_specs hout]

/-- Witness for C1 at a concrete program with two devices and one
input/output spec each, under the consistent lookup. -/
theorem ioCallableProgram_serdes_roundtrip_witness :
    IoCallableProgramSerDes.Deserialize
      (IoCallableProgramSerDes.Serialize
        ⟨"custom_call", "prog", "payload", [⟨0, 10⟩, ⟨1, 11⟩],
         [⟨3, [2, 2], [⟨0, 10⟩]⟩], [⟨5, [4], [⟨1, 11⟩]⟩]⟩)
      (.programOptions fun i =>
        if i = 0 then some ⟨0, 10⟩ else if i = 1 then some ⟨1, 11⟩ else none) =
    .ok ⟨"custom_call", "prog", "payload", [⟨0, 10⟩, ⟨1, 11⟩],
         [⟨3, [2, 2], [⟨0, 10⟩]⟩], [⟨5, [4], [⟨1, 11⟩]⟩]⟩ :=
  ioCallableProgram_serdes_roundtrip _ _ (by decide) (by decide) (by decide)

/-- C2 counterexample: deserializing with a DeserializeOptions value that
is not a DeserializeProgramOptions does not produce an InvalidOptions
error status; the llvm cast asserts and the call aborts. -/
theorem deserialize_options_mismatch_counterexample :
    IoCallableProgramSerDes.Deserialize (.junk "x") .otherOptions = .abort ∧
    IoCallableProgramSerDes.Deserialize (.junk "x") .otherOptions ≠
      .err .invalidOptions := by
  exact ⟨rfl, by decide⟩

/-- C2 (amended): when the DeserializeOptions passed to the
IoCallableProgram deserializer is not a DeserializeProgramOptions, the
mismatch is caught by the capability check of the llvm cast, which aborts
(assertion failure) for every payload; it is never silently ignored and
never yields a value or an InvalidOptions error status. -/
theorem deserialize_options_mismatch_aborts (serialized : SerializedBytes) :
    IoCallableProgramSerDes.Deserialize serialized .otherOptions = .abort := rfl

/-- C3: serializing IoCallableCompileOptions always yields the empty
payload; deserializing succeeds exactly on the empty payload and rejects
every non-empty payload with a MalformedPayload (invalid-argument) error,
producing no value. -/
theorem compileOptions_empty_canonicalization :
    (∀ v : IoCallableCompileOptions,
        IoCallableCompileOptionsSerDes.Serialize v = .empty) ∧
    (∀ o : DeserializeOptions,
        IoCallableCompileOptionsSerDes.Deserialize .empty o = .ok ⟨⟩) ∧
    (∀ (s : SerializedBytes) (o : DeserializeOptions), s ≠ .empty →
        IoCallableCompileOptionsSerDes.Deserialize s o =
          .err (.malformedPayload compileOptionsMalformedMsg)) := by
  refine ⟨fun v => rfl, fun o => rfl, fun s o hs => ?_⟩
  cases s with
  | empty => exact absurd rfl hs
  | programProto p => rfl
  | junk str => rfl

/-- Witness for C3: the empty payload round-trips and a concrete
non-empty payload is rejected as malformed. -/
theorem compileOptions_empty_canonicalization_witness :
    IoCallableCompileOptionsSerDes.Serialize ⟨⟩ = .empty ∧
    IoCallableCompileOptionsSerDes.Deserialize .empty .otherOptions = .ok ⟨⟩ ∧
    IoCallableCompileOptionsSerDes.Deserialize (.junk "x") .otherOptions =
      .err (.malformedPayload compileOptionsMalformedMsg) :=
  ⟨compileOptions_empty_canonicalization.1 ⟨⟩,
   compileOptions_empty_canonicalization.2.1 .otherOptions,
   compileOptions_empty_canonicalization.2.2 (.junk "x") .otherOptions (by decide)⟩

/-- C4: a serialized program whose device list references logical ids 0
and 1, deserialized with options resolving 0 to dA and 1 to dB, yields a
program whose device list is exactly [dA, dB], in that order. -/
theorem device_resolution_propagation (p : IoCallableProgram)
    (d0 d1 dA dB : Device) (lookup : LookupDevice)
    (h0 : d0.id = 0) (h1 : d1.id = 1)
    (hdevs : p.devices = [d0, d1])
    (hin : p.input_specs = []) (hout : p.output_specs = [])
    (hA : lookup 0 = some dA) (hB : lookup 1 = some dB) :
    IoCallableProgramSerDes.Deserialize (IoCallableProgramSerDes.Serialize p)
      (.programOptions lookup) =
      .ok ⟨p.type, p.name, p.serialized_program_text, [dA, dB], [], []⟩ := by
  rw [IoCallableProgramSerDes.Serialize, IoCallableProgramSerDes.Deserialize]
  simp only [castToProgramOptions, parseIoCallableProgramProto, deviceListFromProto,
    deviceListToProto, hdevs, hin, hout, List.map_cons, List.map_nil, h0, h1,
    resolveDevices, hA, hB, resolveSpecs]

/-- Witness for C4 at a concrete program and a lookup sending 0 and 1 to
two fresh device handles. -/
theorem device_resolution_propagation_witness :
    IoCallableProgramSerDes.Deserialize
      (IoCallableProgramSerDes.Serialize
        ⟨"t", "n", "body", [⟨0, 5⟩, ⟨1, 6⟩], [], []⟩)
      (.programOptions fun i =>
        if i = 0 then some ⟨7, 70⟩ else if i = 1 then some ⟨8, 80⟩ else none) =
    .ok ⟨"t", "n", "body", [⟨7, 70⟩, ⟨8, 80⟩], [], []⟩ :=
  device_resolution_propagation _ _ _ _ _ _ rfl rfl rfl rfl rfl rfl rfl

/-- C5: if any logical device id referenced by the encoded device list or
by any input/output array spec has no resolution under the options, the
deserialization fails with UnresolvedDevice and produces no program. -/
theorem unresolved_device_rejection (proto : IoCallableProgramProto)
    (lookup : LookupDevice)
    (h : ∃ i ∈ referencedIds proto, lookup i = none) :
    ∃ j, lookup j = none ∧
      IoCallableProgramSerDes.Deserialize (.programProto proto)
        (.programOptions lookup) = .err (.unresolvedDevice j) := by
  obtain ⟨i, hmem, hnone⟩ := h
  rw [IoCallableProgramSerDes.Deserialize]
  simp only [castToProgramOptions, parseIoCallableProgramProto]
  cases hdl : deviceListFromProto lookup proto.devices with
  | error e =>
    obtain ⟨j, hj, he⟩ := resolveDevices_error_elim lookup proto.devices.device_ids e hdl
    exact ⟨j, hj, by rw [he]⟩
  | ok devices =>
    cases hins : resolveSpecs lookup proto.input_specs with
    | error e =>
      obtain ⟨j, hj, he⟩ := resolveSpecs_error_elim lookup proto.input_specs e hins
      exact ⟨j, hj, by rw [he]⟩
    | ok input_specs =>
      cases houts : resolveSpecs lookup proto.output_specs with
      | error e =>
        obtain ⟨j, hj, he⟩ := resolveSpecs_error_elim lookup proto.output_specs e houts
        exact ⟨j, hj, by rw [he]⟩
      | ok output_specs =>
        exfalso
        rw [referencedIds] at hmem
        rcases List.mem_append.mp hmem with hmem1 | hmem2
        · rcases List.mem_append.mp hmem1 with hmemd | hmemi
          · obtain ⟨d, hd⟩ := resolveDevices_ok_elim lookup proto.devices.device_ids
              devices hdl i hmemd
            rw [hd] at hnone; exact Option.noConfusion hnone
          · obtain ⟨s, hs, his⟩ := List.mem_flatMap.mp hmemi
            obtain ⟨d, hd⟩ := resolveSpecs_ok_elim lookup proto.input_specs
              input_specs hins s hs i his
            rw [hd] at hnone; exact Option.noConfusion hnone
        · obtain ⟨s, hs, his⟩ := List.mem_flatMap.mp hmem2
          obtain ⟨d, hd⟩ := resolveSpecs_ok_elim lookup proto.output_specs
            output_specs houts s hs i his
          rw [hd] at hnone; exact Option.noConfusion hnone

/-- Witness for C5 at a proto referencing id 0 under a lookup that
resolves nothing. -/
theorem unresolved_device_rejection_witness :
    ∃ j, (fun _ : Nat => (none : Option Device)) j = none ∧
      IoCallableProgramSerDes.Deserialize
        (.programProto ⟨"t", "n", "body", ⟨[0]⟩, [], []⟩)
        (.programOptions fun _ => none) = .err (.unresolvedDevice j) :=
  unresolved_device_rejection ⟨"t", "n", "body", ⟨[0]⟩, [], []⟩ (fun _ => none)
    ⟨0, by decide, rfl⟩

/-- C6: every byte string that does not parse as an
IoCallableProgramProto is rejected with a MalformedPayload
(invalid-argument) error and no value, in particular no partially
populated program, is produced. -/
theorem malformed_payload_rejection (s : SerializedBytes) (lookup : LookupDevice)
    (h : parseIoCallableProgramProto s = none) :
    IoCallableProgramSerDes.Deserialize s (.programOptions lookup) =
      .err (.malformedPayload "Failed to parse serialized IoCallableProgramProto") := by
  rw [IoCallableProgramSerDes.Deserialize]
  simp only [castToProgramOptions, h]

/-- Witness for C6 at a concrete unparseable byte string. -/
theorem malformed_payload_rejection_witness :
    IoCallableProgramSerDes.Deserialize (.junk "garbage")
      (.programOptions fun _ => none) =
      .err (.malformedPayload "Failed to parse serialized IoCallableProgramProto") :=
  malformed_payload_rejection (.junk "garbage") (fun _ => none) rfl

/-- C9: the result of IoCallableCompileOptionsSerDes Deserialize depends
only on the serialized bytes, never on the options argument, and it never
produces an InvalidOptions error nor aborts on an options cast. -/
theorem compileOptions_deserialize_ignores_options (s : SerializedBytes)
    (o₁ o₂ : DeserializeOptions) :
    IoCallableCompileOptionsSerDes.Deserialize s o₁ =
      IoCallableCompileOptionsSerDes.Deserialize s o₂ ∧
    IoCallableCompileOptionsSerDes.Deserialize s o₁ ≠ .err .invalidOptions ∧
    IoCallableCompileOptionsSerDes.Deserialize s o₁ ≠ .abort := by
  refine ⟨rfl, ?_, ?_⟩ <;> cases s <;>
    simp [IoCallableCompileOptionsSerDes.Deserialize]

end IfrtSerDes

/-! ## Claim theorems: ahead-of-time compile/load/execute -/

namespace PjrtAot

/-- A successful compilation produces an Executable whose captured target
is the target description it was compiled against. -/
theorem Compile_ok_target (opts : CompileOptions) (program : SourceProgram)
    (target : TargetDescription) (client : Option Client) (e : Executable)
    (h : Compile opts program target client = .ok e) : e.target = target := by
  rw [Compile] at h
  repeat' split at h
  all_goals injection h
  all_goals rename_i h1
  all_goals rw [← h1]

/-- C7: Compile accepts an absent (null) client — any live client yields
the identical Executable — and the Executable of such a device-less
ahead-of-time build is loadable later from its serialized bytes alone
against a client with a matching target, reconstructing the compiled code
without recompilation. -/
theorem aot_null_client_compile_loadable (opts : CompileOptions)
    (program : SourceProgram) (target : TargetDescription) (client : Client)
    (e : Executable)
    (hcompile : Compile opts program target none = .ok e)
    (hmatch : client.deviceTarget = target) :
    (∀ c : Client, Compile opts program target (some c) = .ok e) ∧
    LoadSerialized (SerializeExecutable e) client =
      .ok ⟨client, e.loweredOutputs, e.numParams, 1⟩ := by
  have htarget := Compile_ok_target opts program target none e hcompile
  refine ⟨fun c => hcompile, ?_⟩
  rw [SerializeExecutable, LoadSerialized, htarget, hmatch]
  simp

/-- Witness for C7: the constant-2 program compiled with a null client
against a concrete target, then loaded from its serialized bytes. -/
theorem aot_null_client_compile_loadable_witness :
    Compile ⟨some ⟨1, [16]⟩⟩ kProgram ⟨1, [16]⟩ (some ⟨⟨1, [16]⟩⟩) =
      .ok ⟨⟨1, [16]⟩, [2], 0⟩ ∧
    LoadSerialized (SerializeExecutable ⟨⟨1, [16]⟩, [2], 0⟩) ⟨⟨1, [16]⟩⟩ =
      .ok ⟨⟨⟨1, [16]⟩⟩, [2], 0, 1⟩ :=
  ⟨(aot_null_client_compile_loadable ⟨some ⟨1, [16]⟩⟩ kProgram ⟨1, [16]⟩
      ⟨⟨1, [16]⟩⟩ ⟨⟨1, [16]⟩, [2], 0⟩ rfl rfl).1 ⟨⟨1, [16]⟩⟩,
   (aot_null_client_compile_loadable ⟨some ⟨1, [16]⟩⟩ kProgram ⟨1, [16]⟩
      ⟨⟨1, [16]⟩⟩ ⟨⟨1, [16]⟩, [2], 0⟩ rfl rfl).2⟩

/-- C8: compiling the trivial scalar-constant program returning 2 against
a captured target description, serializing the Executable, loading the
bytes against a live client of that target, and executing with no
arguments yields exactly one outer entry (one replica) holding exactly one
buffer, equal to the literal 2. -/
theorem aot_compile_serialize_load_execute :
    ∃ (e : Executable) (le : LoadedExecutable),
      Compile ⟨some ⟨1, [16, 64]⟩⟩ kProgram ⟨1, [16, 64]⟩ none = .ok e ∧
      LoadSerialized (SerializeExecutable e) ⟨⟨1, [16, 64]⟩⟩ = .ok le ∧
      Execute le [[]] = .ok [[2]] :=
  ⟨⟨⟨1, [16, 64]⟩, [2], 0⟩, ⟨⟨⟨1, [16, 64]⟩⟩, [2], 0, 1⟩, rfl, rfl, rfl⟩

end PjrtAot

/-! ## Claim theorems: plugin profiler registration -/

namespace PyProfiler

/-- C10: register_plugin_profiler raises XlaRuntimeError whenever the
capsule name is not pjrt_c_api, and in that case the result is the same
for every capsule data pointer and no profiler factory is registered. -/
theorem register_plugin_profiler_bad_capsule (c_api : Capsule)
    (factories : List (Option Nat)) (h : c_api.name ≠ "pjrt_c_api") :
    register_plugin_profiler c_api factories =
      .error (.xlaRuntimeError
        "Argument to register_plugin_profiler was not a pjrt_c_api capsule.") ∧
    ∀ d : PjrtCApi,
      register_plugin_profiler ⟨c_api.name, d⟩ factories =
        register_plugin_profiler c_api factories := by
  constructor
  · simp [register_plugin_profiler, h]
  · intro d
    simp [register_plugin_profiler, h]

/-- Witness for C10 at a concretely misnamed capsule, including one whose
data does hold a profiler extension. -/
theorem register_plugin_profiler_bad_capsule_witness :
    register_plugin_profiler ⟨"not_pjrt", ⟨[]⟩⟩ [] =
      .error (.xlaRuntimeError
        "Argument to register_plugin_profiler was not a pjrt_c_api capsule.") ∧
    register_plugin_profiler ⟨"not_pjrt", ⟨[⟨.profiler, some 3⟩]⟩⟩ [] =
      register_plugin_profiler ⟨"not_pjrt", ⟨[]⟩⟩ [] :=
  ⟨(register_plugin_profiler_bad_capsule ⟨"not_pjrt", ⟨[]⟩⟩ [] (by decide)).1,
   (register_plugin_profiler_bad_capsule ⟨"not_pjrt", ⟨[]⟩⟩ []
      (by decide)).2 ⟨[⟨.profiler, some 3⟩]⟩⟩

end PyProfiler
